import Mathlib

set_option maxHeartbeats 1000000

/-!
Shallow embedding of the `typed_sentinels` library
(`src/typed_sentinels/_core.py` and `_exceptions.py`).

The library is a singleton registry: `Sentinel.__new__` resolves an
effective key (explicit argument, else the pending subscripted key stashed
by `__class_getitem__`, else `typing.Any`), consults a class-level
`WeakValueDictionary` keyed by `(cls.__name__, hint)`, validates the key,
and creates-or-returns the unique live instance for that key.

The embedding models Python values with identity (structural equality on
`PyVal`) distinguished from `==`-equality (`pyEq`, under which `1 == True`
and `0 == False`).  Class-level mutable state (`_cls_cache`, `_cls_hint`,
and the uid counter that stands for object identity of fresh allocations)
is threaded explicitly through `SysState`.
-/

/-- Identity of a Python class object: a runtime class has an object identity
(`id`) and a `__name__` attribute (`name`).  Distinct classes may share a
`__name__`. -/
structure PyClass where
  id : Nat
  name : String
deriving DecidableEq

/-- The Python values the library manipulates as hints and results.
`objMarker` is the module-private default marker `_OBJECT = object()`;
`anyTy` is `typing.Any`; `sentinelCls` is the `Sentinel` class object itself;
`sent cls hint uid` is a live Sentinel instance with its concrete class, its
`_hint` slot, and an allocation identity (two instances with distinct `uid`
are distinct objects). -/
inductive PyVal where
  | objMarker : PyVal
  | anyTy : PyVal
  | sentinelCls : PyVal
  | ellipsis : PyVal
  | pyNone : PyVal
  | pyBool : Bool → PyVal
  | pyInt : Int → PyVal
  | ty : String → PyVal
  | sent : PyClass → PyVal → Nat → PyVal
deriving DecidableEq

/-- Python `==` on the modelled values.  Booleans compare equal to the
integers `1` and `0`; `Sentinel.__eq__` compares the concrete class and the
`_hint` values (`_core.py` lines 132-135, falling back to identity against
non-Sentinel operands); every other comparison falls back to identity. -/
def pyEq : PyVal → PyVal → Bool
  | .pyBool b, .pyInt n => if b then n == 1 else n == 0
  | .pyInt n, .pyBool b => if b then n == 1 else n == 0
  | .sent c₁ h₁ _, .sent c₂ h₂ _ => c₁ == c₂ && pyEq h₁ h₂
  | a, b => a == b

/-- Python `x in (e₁, ..., eₙ)`: membership by identity or `==`-equality. -/
def memTup (x : PyVal) (tup : List PyVal) : Bool :=
  tup.any fun e => x == e || pyEq x e

/-- Embedding of `isinstance(obj, Sentinel)`. -/
def isSentinelInst : PyVal → Bool
  | .sent _ _ _ => true
  | _ => false

/-- The `hint` property (`_core.py` lines 43-46): reads the `_hint` slot. -/
def hintOf : PyVal → PyVal
  | .sent _ h _ => h
  | _ => .pyNone

/-- Every constructed instance has its `_hint` slot set during `__new__`, so
`hasattr(obj, 'hint')` holds exactly on Sentinel instances. -/
def hasattrHint (obj : PyVal) : Bool :=
  isSentinelInst obj

/-- The exception classes of `_exceptions.py`, plus the `AttributeError`
raised by the immutability guards. -/
inductive SentinelError where
  | invalidHintError
  | subscriptedTypeError
  | attributeError
deriving DecidableEq

/-- The mutable class-level state: the shared `WeakValueDictionary` cache
(an association list from `(cls.__name__, hint)` keys to live instances —
an entry is present exactly while its instance is live), the per-class
`_cls_hint` pending slots (absence of an entry means `_OBJECT`), and a
counter supplying fresh allocation identities. -/
structure SysState where
  cache : List ((String × PyVal) × PyVal)
  pending : List (Nat × PyVal)
  nextUid : Nat
deriving DecidableEq

/-- The state at interpreter start: empty cache, no pending key. -/
def initState : SysState := ⟨[], [], 0⟩

/-- Dictionary key equality on `(cls.__name__, hint)` tuples: component-wise
identity-or-`==`. -/
def keyMatch (stored query : String × PyVal) : Bool :=
  stored.1 == query.1 && (stored.2 == query.2 || pyEq stored.2 query.2)

/-- Embedding of `cls._cls_cache.get(key)`. -/
def cacheGet (s : SysState) (key : String × PyVal) : Option PyVal :=
  (s.cache.find? fun e => keyMatch e.1 key).map (·.2)

/-- Read a class's `_cls_hint` slot (default `_OBJECT`). -/
def pendingOf (s : SysState) (cid : Nat) : PyVal :=
  ((s.pending.find? fun e => e.1 == cid).map (·.2)).getD .objMarker

/-- Write a class's `_cls_hint` slot. -/
def setPending (s : SysState) (cid : Nat) (v : PyVal) : SysState :=
  { s with pending := (cid, v) :: s.pending.filter fun e => e.1 ≠ cid }

/-- Key resolution, `_core.py` lines 82-85: the explicit argument wins if one
was passed, else the pending subscripted key, else `typing.Any`. -/
def resolveHint (hint p : PyVal) : PyVal :=
  let h := if hint == .objMarker && p != .objMarker then p else hint
  if h == .objMarker then .anyTy else h

/-- The validation predicate of `_core.py` line 95:
`isinstance(hint, Sentinel) or (hint in (Sentinel, Ellipsis, True, False, None))`. -/
def isInvalidHint (h : PyVal) : Bool :=
  isSentinelInst h ||
    memTup h [.sentinelCls, .ellipsis, .pyBool true, .pyBool false, .pyNone]

/-- Shallow embedding of `Sentinel.__new__` (`_core.py` lines 52-104):
consume the pending `_cls_hint` slot, resolve the effective key, try the
lock-free cache fast path, check subscripted/explicit key conflict, validate
the key, then double-check the cache under the class lock and allocate if
still absent.  Returns the raised exception or the instance, together with
the class-level state after the call. -/
def Sentinel.new (cls : PyClass) (hint : PyVal) (s : SysState) :
    Except SentinelError PyVal × SysState :=
  let p := pendingOf s cls.id
  let s₁ := if p ≠ PyVal.objMarker then setPending s cls.id .objMarker else s
  let hint₂ := resolveHint hint p
  let key := (cls.name, hint₂)
  match cacheGet s₁ key with
  | some inst => (.ok inst, s₁)
  | none =>
    if (!memTup hint₂ [.objMarker, .anyTy]) && (!memTup p [.objMarker, .anyTy])
        && (!pyEq hint₂ p) && (hint₂ != p) then
      (.error .subscriptedTypeError, s₁)
    else if isInvalidHint hint₂ then
      (.error .invalidHintError, s₁)
    else
      match cacheGet s₁ key with
      | some inst => (.ok inst, s₁)
      | none =>
        let inst := PyVal.sent cls hint₂ s₁.nextUid
        (.ok inst, { s₁ with cache := (key, inst) :: s₁.cache, nextUid := s₁.nextUid + 1 })

/-- Embedding of `Sentinel.__class_getitem__` (`_core.py` lines 48-50): stash the
subscripted key in the class's `_cls_hint` slot and return the class itself,
so that `Sentinel[A](...)` next invokes `__new__` on the same class. -/
def Sentinel.classGetitem (cls : PyClass) (key : PyVal) (s : SysState) :
    PyClass × SysState :=
  (cls, setPending s cls.id key)

/-- Embedding of `Sentinel.__setattr__` (`_core.py` lines 149-151): it unconditionally raises. -/
def Sentinel.setAttr (_self : PyVal) (_name : String) (_value : PyVal) :
    Except SentinelError Unit :=
  .error .attributeError

/-- Embedding of `Sentinel.__delattr__` (`_core.py` lines 153-155): it unconditionally raises. -/
def Sentinel.delAttr (_self : PyVal) (_name : String) :
    Except SentinelError Unit :=
  .error .attributeError

/-- Embedding of `Sentinel.__reduce__` (`_core.py` lines 143-144): serialize an instance
as the callable `self.__class__` applied to the single argument `self._hint`. -/
def Sentinel.reduce : PyVal → Option (PyClass × PyVal)
  | .sent cls h _ => some (cls, h)
  | _ => none

/-- Deserialization: pickle invokes the reduced callable on the reduced
arguments, i.e. calls `cls(hint)`, which routes through `Sentinel.__new__`. -/
def loads (r : PyClass × PyVal) (s : SysState) :
    Except SentinelError PyVal × SysState :=
  Sentinel.new r.1 r.2 s

/-- Embedding of `is_sentinel` (`_core.py` lines 158-178). -/
def is_sentinel (obj : PyVal) (typ : PyVal) : Bool :=
  if typ != PyVal.pyNone then
    if isSentinelInst obj && hasattrHint obj then pyEq (hintOf obj) typ
    else isSentinelInst obj
  else isSentinelInst obj

/-- The base registry class: the `Sentinel` class object, `__name__ = "Sentinel"`. -/
def SentinelBase : PyClass := ⟨0, "Sentinel"⟩

/-- Well-formedness of a class-level state, maintained by every reachable
state: each cache entry was inserted by `__new__`, so its stored key passed
validation and its value is an instance whose `_hint` is the stored key and
whose concrete class has the stored key's name component. -/
def WFState (s : SysState) : Prop :=
  ∀ e ∈ s.cache, isInvalidHint e.1.2 = false ∧ e.1.2 ≠ PyVal.objMarker ∧
    ∃ cls uid, e.2 = PyVal.sent cls e.1.2 uid ∧ cls.name = e.1.1

example : (Sentinel.new SentinelBase (.ty "str") initState).1 =
    .ok (.sent SentinelBase (.ty "str") 0) := by rfl

example : (Sentinel.new SentinelBase .pyNone initState).1 =
    .error .invalidHintError := by rfl

example : (Sentinel.new SentinelBase (.pyInt 1) initState).1 =
    .error .invalidHintError := by rfl

example :
    (Sentinel.new SentinelBase (.ty "bool")
      (Sentinel.classGetitem SentinelBase (.ty "str") initState).2).1 =
    .error .subscriptedTypeError := by rfl

example : (Sentinel.new SentinelBase .objMarker initState).1 =
    .ok (.sent SentinelBase .anyTy 0) := by rfl

lemma pyEq_refl (a : PyVal) : pyEq a a = true := by
  induction a with
  | sent c h u ih => simp [pyEq, ih]
  | _ => simp [pyEq]

/-- A stored key that passed validation is `==`-equal only to structurally
identical values: the only non-structural `==`-equalities in the model relate
booleans and the integers `0`/`1`, all of which are rejected keys. -/
lemma pyEq_valid_eq {a b : PyVal} (hv : isInvalidHint a = false)
    (he : pyEq a b = true) : a = b := by
  cases a <;> cases b <;>
    simp_all [pyEq, isInvalidHint, memTup, isSentinelInst]

lemma keyMatch_valid_eq {k q : String × PyVal} (hv : isInvalidHint k.2 = false)
    (hm : keyMatch k q = true) : k = q := by
  obtain ⟨k1, k2⟩ := k
  obtain ⟨q1, q2⟩ := q
  simp only [keyMatch, Bool.and_eq_true, Bool.or_eq_true, beq_iff_eq] at hm
  obtain ⟨h1, h2⟩ := hm
  rcases h2 with h2 | h2
  · simp [h1, h2]
  · have h3 : k2 = q2 := pyEq_valid_eq hv h2
    simp [h1, h3]

lemma cacheGet_setPending (s : SysState) (cid : Nat) (v : PyVal)
    (key : String × PyVal) : cacheGet (setPending s cid v) key = cacheGet s key := rfl

lemma pendingOf_setPending (s : SysState) (cid : Nat) (v : PyVal) :
    pendingOf (setPending s cid v) cid = v := by
  simp [pendingOf, setPending]

lemma pendingOf_eq_of_pending_eq {s t : SysState} (h : s.pending = t.pending)
    (cid : Nat) : pendingOf s cid = pendingOf t cid := by
  simp [pendingOf, h]

/-- Every branch of `__new__` returns a state whose pending slots are those of
the state after the initial consume step (`_core.py` lines 80-81). -/
lemma new_snd_pending (cls : PyClass) (hint : PyVal) (s : SysState) :
    (Sentinel.new cls hint s).2.pending =
      (if pendingOf s cls.id ≠ PyVal.objMarker then setPending s cls.id PyVal.objMarker
       else s).pending := by
  simp only [Sentinel.new]
  split
  · rfl
  · split
    · rfl
    · split
      · rfl
      · split
        · rfl
        · rfl

/-- Every branch of `__new__` leaves the class-level pending slot of the
calling class cleared. -/
lemma new_pending (cls : PyClass) (hint : PyVal) (s : SysState) :
    pendingOf (Sentinel.new cls hint s).2 cls.id = PyVal.objMarker := by
  rw [pendingOf_eq_of_pending_eq (new_snd_pending cls hint s) cls.id]
  by_cases hp : pendingOf s cls.id = PyVal.objMarker
  · simp [hp]
  · simp [hp, pendingOf_setPending]

/-- C7: every creation attempt consumes the pending subscripted-key slot:
whatever path `__new__` takes (cache fast path, locked allocation, or either
exception), the calling class's `_cls_hint` slot is reset to the empty
`_OBJECT` state by the time the call returns, so a stashed key can influence
at most the very next creation attempt on that registry. -/
theorem c7_pending_consumed (cls : PyClass) (hint : PyVal) (s : SysState) :
    pendingOf (Sentinel.new cls hint s).2 cls.id = PyVal.objMarker :=
  new_pending cls hint s

lemma cacheGet_eq_of_cache_eq {s t : SysState} (h : s.cache = t.cache)
    (key : String × PyVal) : cacheGet s key = cacheGet t key := by
  simp [cacheGet, h]

/-- The consume step touches only the pending slots, never the cache. -/
lemma cacheGet_consume (s : SysState) (cid : Nat) (c : Prop) [Decidable c]
    (key : String × PyVal) :
    cacheGet (if c then setPending s cid PyVal.objMarker else s) key = cacheGet s key := by
  split <;> rfl

lemma cache_consume (s : SysState) (cid : Nat) (c : Prop) [Decidable c] :
    (if c then setPending s cid PyVal.objMarker else s).cache = s.cache := by
  split <;> rfl

lemma nextUid_consume (s : SysState) (cid : Nat) (c : Prop) [Decidable c] :
    (if c then setPending s cid PyVal.objMarker else s).nextUid = s.nextUid := by
  split <;> rfl

lemma cacheGet_consume' (s : SysState) (cid : Nat) (c : Prop) [Decidable c]
    (key : String × PyVal) :
    cacheGet (if c then s else setPending s cid PyVal.objMarker) key = cacheGet s key := by
  split <;> rfl

lemma cache_consume' (s : SysState) (cid : Nat) (c : Prop) [Decidable c] :
    (if c then s else setPending s cid PyVal.objMarker).cache = s.cache := by
  split <;> rfl

lemma nextUid_consume' (s : SysState) (cid : Nat) (c : Prop) [Decidable c] :
    (if c then s else setPending s cid PyVal.objMarker).nextUid = s.nextUid := by
  split <;> rfl

/-- An explicitly passed key always wins resolution, whatever is pending. -/
lemma resolveHint_explicit (p : PyVal) {k : PyVal} (hk : k ≠ PyVal.objMarker) :
    resolveHint k p = k := by
  simp [resolveHint, hk]

/-- Resolution never produces the private default marker. -/
lemma resolveHint_ne_marker (h p : PyVal) : resolveHint h p ≠ PyVal.objMarker := by
  by_cases hh : h = PyVal.objMarker <;> by_cases hp : p = PyVal.objMarker <;>
    simp [resolveHint, hh, hp]

lemma keyMatch_refl (k : String × PyVal) : keyMatch k k = true := by
  simp [keyMatch, pyEq_refl]

/-- Fast path (`_core.py` line 88): a live cache entry for the resolved key is
returned immediately, before the conflict and validity checks, and the cache
is left unchanged. -/
lemma new_fastpath {cls : PyClass} {hint : PyVal} {s : SysState} {inst : PyVal}
    (h : cacheGet s (cls.name, resolveHint hint (pendingOf s cls.id)) = some inst) :
    (Sentinel.new cls hint s).1 = .ok inst ∧
      (Sentinel.new cls hint s).2.cache = s.cache := by
  refine ⟨?_, ?_⟩ <;>
    simp [Sentinel.new, cacheGet_consume, cacheGet_consume', h, cache_consume,
      cache_consume']

lemma cacheGet_cons_self {s : SysState} {key : String × PyVal} {v : PyVal}
    {rest : List ((String × PyVal) × PyVal)} (h : s.cache = (key, v) :: rest) :
    cacheGet s key = some v := by
  rw [cacheGet, h]
  simp [List.find?_cons, keyMatch_refl]

/-- Outcome analysis for `__new__`: a call either hits the cache and returns
the live entry unchanged, or misses; on a miss it either raises (leaving the
cache unchanged) or passes validation and allocates a fresh instance bound to
the resolved key, inserting it at the resolved cache key. -/
lemma new_spec (cls : PyClass) (hint : PyVal) (s : SysState) :
    (∃ inst, cacheGet s (cls.name, resolveHint hint (pendingOf s cls.id)) = some inst ∧
        (Sentinel.new cls hint s).1 = .ok inst ∧
        (Sentinel.new cls hint s).2.cache = s.cache) ∨
    (cacheGet s (cls.name, resolveHint hint (pendingOf s cls.id)) = none ∧
      ((∃ err, (Sentinel.new cls hint s).1 = .error err ∧
          (Sentinel.new cls hint s).2.cache = s.cache) ∨
        (isInvalidHint (resolveHint hint (pendingOf s cls.id)) = false ∧
          (Sentinel.new cls hint s).1 =
            .ok (.sent cls (resolveHint hint (pendingOf s cls.id)) s.nextUid) ∧
          (Sentinel.new cls hint s).2.cache =
            ((cls.name, resolveHint hint (pendingOf s cls.id)),
              PyVal.sent cls (resolveHint hint (pendingOf s cls.id)) s.nextUid) ::
              s.cache))) := by
  simp only [Sentinel.new, cacheGet_consume, cacheGet_consume']
  split
  · next inst heq =>
      left
      exact ⟨inst, heq, rfl, cache_consume s cls.id _⟩
  · next heq =>
      right
      refine ⟨heq, ?_⟩
      split
      · exact Or.inl ⟨_, rfl, cache_consume s cls.id _⟩
      · split
        · exact Or.inl ⟨_, rfl, cache_consume s cls.id _⟩
        · next hval =>
            right
            refine ⟨by simpa using hval, ?_, ?_⟩
            · simp [nextUid_consume, nextUid_consume']
            · simp [cache_consume, cache_consume', nextUid_consume, nextUid_consume']

lemma wf_cache_eq {s t : SysState} (h : s.cache = t.cache) (hwf : WFState t) :
    WFState s := by
  intro e he
  exact hwf e (h ▸ he)

lemma wf_init : WFState initState := by
  intro e he
  simp [initState] at he

/-- Creation preserves well-formedness of the class-level state: it only ever
inserts, at the resolved key, a fresh instance carrying that key, and only
after the key passed validation. -/
lemma wf_new (cls : PyClass) (hint : PyVal) (s : SysState) (hwf : WFState s) :
    WFState (Sentinel.new cls hint s).2 := by
  rcases new_spec cls hint s with ⟨inst, _, _, hcache⟩ |
    ⟨_, ⟨err, _, hcache⟩ | ⟨hval, _, hcache⟩⟩
  · exact wf_cache_eq hcache hwf
  · exact wf_cache_eq hcache hwf
  · intro e he
    rw [hcache] at he
    rcases List.mem_cons.mp he with he | he
    · subst he
      exact ⟨hval, resolveHint_ne_marker hint (pendingOf s cls.id),
        cls, s.nextUid, rfl, rfl⟩
    · exact hwf e he

/-- An instance returned by `__new__` from a well-formed state is a `sent`
value whose concrete class carries the calling class's `__name__`, whose
`_hint` is not the private marker, and which the post-call cache maps to
itself at its own `(name, hint)` key. -/
lemma new_ok_shape {cls : PyClass} {hint inst : PyVal} {s : SysState} (hwf : WFState s)
    (h : (Sentinel.new cls hint s).1 = .ok inst) :
    ∃ c h₀ uid, inst = PyVal.sent c h₀ uid ∧ c.name = cls.name ∧
      h₀ ≠ PyVal.objMarker ∧
      cacheGet (Sentinel.new cls hint s).2 (c.name, h₀) = some inst := by
  rcases new_spec cls hint s with ⟨inst', hg, hok, hcache⟩ |
    ⟨hg, ⟨err, herr, _⟩ | ⟨hval, hok, hcache⟩⟩
  · rw [hok] at h
    injection h with h
    subst h
    rw [cacheGet, Option.map_eq_some'] at hg
    obtain ⟨e, hfind, he2⟩ := hg
    have hmem := List.mem_of_find?_eq_some hfind
    have hmatch := List.find?_some hfind
    obtain ⟨hvK, hneK, c, uid, hshape, hname⟩ := hwf e hmem
    have hkey : e.1 = (cls.name, resolveHint hint (pendingOf s cls.id)) :=
      keyMatch_valid_eq hvK hmatch
    refine ⟨c, e.1.2, uid, by rw [← he2, hshape], by rw [hname, hkey], hneK, ?_⟩
    rw [cacheGet_eq_of_cache_eq hcache]
    have : (c.name, e.1.2) = e.1 := by rw [hname]
    rw [this, hkey, cacheGet, Option.map_eq_some']
    exact ⟨e, hfind, he2⟩
  · rw [herr] at h
    cases h
  · rw [hok] at h
    injection h with h
    subst h
    exact ⟨cls, resolveHint hint (pendingOf s cls.id), s.nextUid, rfl, rfl,
      resolveHint_ne_marker hint (pendingOf s cls.id), cacheGet_cons_self hcache⟩

/-- After a successful call, the post-state cache maps the resolved key to the
returned instance (it was either already there or just inserted). -/
lemma new_ok_cacheGet {cls : PyClass} {hint inst : PyVal} {s : SysState}
    (h : (Sentinel.new cls hint s).1 = .ok inst) :
    cacheGet (Sentinel.new cls hint s).2
      (cls.name, resolveHint hint (pendingOf s cls.id)) = some inst := by
  rcases new_spec cls hint s with ⟨inst', hg, hok, hcache⟩ |
    ⟨hg, ⟨err, herr, _⟩ | ⟨hval, hok, hcache⟩⟩
  · rw [hok] at h
    injection h with h
    subst h
    rw [cacheGet_eq_of_cache_eq hcache]
    exact hg
  · rw [herr] at h
    cases h
  · rw [hok] at h
    injection h with h
    subst h
    exact cacheGet_cons_self hcache

/-- C1: singleton per key while live.  With an explicit key `k`: (a) whenever
the weak cache holds a live entry for `k`, `__new__` returns exactly that
object via the lock-free fast path, whatever else the state holds; and
(b) whenever a call returns an instance — through the fast path or through
the locked double-checked create path that inserted it — an immediately
repeated call on the resulting state returns the identical object. -/
theorem c1_singleton_while_live (cls : PyClass) (k : PyVal) (s : SysState)
    (hk : k ≠ PyVal.objMarker) :
    (∀ inst, cacheGet s (cls.name, k) = some inst →
      (Sentinel.new cls k s).1 = .ok inst) ∧
    (∀ inst, (Sentinel.new cls k s).1 = .ok inst →
      (Sentinel.new cls k (Sentinel.new cls k s).2).1 = .ok inst) := by
  have hr : ∀ p, resolveHint k p = k := fun p => resolveHint_explicit p hk
  constructor
  · intro inst h
    exact (new_fastpath (by rw [hr]; exact h)).1
  · intro inst h
    have hcg := new_ok_cacheGet h
    rw [hr] at hcg
    exact (new_fastpath (by rw [hr]; exact hcg)).1

/-- Witness for C1: concrete repeated creation for the key `str` returns the
instance allocated by the first call. -/
theorem c1_singleton_while_live_witness :
    (Sentinel.new SentinelBase (.ty "str")
      (Sentinel.new SentinelBase (.ty "str") initState).2).1 =
      .ok (.sent SentinelBase (.ty "str") 0) :=
  (c1_singleton_while_live SentinelBase (.ty "str") initState (by decide)).2
    (.sent SentinelBase (.ty "str") 0) (by rfl)

/-- C8: serialization round-trip.  Any instance returned by `__new__` from a
well-formed state reduces to `(its class, its hint)`, and deserialization —
which calls the class on the hint, i.e. re-enters the get-or-create path —
returns the identical live object rather than a reconstructed copy. -/
theorem c8_serialize_roundtrip (cls : PyClass) (k : PyVal) (s : SysState)
    (hwf : WFState s) (inst : PyVal)
    (hok : (Sentinel.new cls k s).1 = .ok inst) :
    ∃ r, Sentinel.reduce inst = some r ∧
      (loads r (Sentinel.new cls k s).2).1 = .ok inst := by
  obtain ⟨c, h₀, uid, hi, hname, hm, hg⟩ := new_ok_shape hwf hok
  subst hi
  refine ⟨(c, h₀), rfl, ?_⟩
  exact (new_fastpath (by rw [resolveHint_explicit _ hm]; exact hg)).1

/-- Witness for C8: the `str` sentinel pickle round-trips to itself. -/
theorem c8_serialize_roundtrip_witness :
    ∃ r, Sentinel.reduce (.sent SentinelBase (.ty "str") 0) = some r ∧
      (loads r (Sentinel.new SentinelBase (.ty "str") initState).2).1 =
        .ok (.sent SentinelBase (.ty "str") 0) :=
  c8_serialize_roundtrip SentinelBase (.ty "str") initState wf_init
    (.sent SentinelBase (.ty "str") 0) (by rfl)

/-- With an empty pending slot and an explicit uncached key that fails
validation, `__new__` raises `InvalidHintError` and leaves the state as it
found it. -/
lemma new_invalid {cls : PyClass} {k : PyVal} {s : SysState}
    (hp : pendingOf s cls.id = PyVal.objMarker) (hk : k ≠ PyVal.objMarker)
    (hc : cacheGet s (cls.name, k) = none) (hv : isInvalidHint k = true) :
    Sentinel.new cls k s = (.error .invalidHintError, s) := by
  have hr : resolveHint k PyVal.objMarker = k := resolveHint_explicit _ hk
  simp [Sentinel.new, hp, hr, hc, hv, memTup, pyEq]

/-- With an empty pending slot and an explicit uncached key that passes
validation, `__new__` allocates a fresh instance bound to the key and inserts
it at `(cls.__name__, key)`. -/
lemma new_alloc {cls : PyClass} {k : PyVal} {s : SysState}
    (hp : pendingOf s cls.id = PyVal.objMarker) (hk : k ≠ PyVal.objMarker)
    (hc : cacheGet s (cls.name, k) = none) (hv : isInvalidHint k = false) :
    Sentinel.new cls k s =
      (.ok (.sent cls k s.nextUid),
        { s with cache := ((cls.name, k), PyVal.sent cls k s.nextUid) :: s.cache,
                 nextUid := s.nextUid + 1 }) := by
  have hr : resolveHint k PyVal.objMarker = k := resolveHint_explicit _ hk
  simp [Sentinel.new, hp, hr, hc, hv, memTup, pyEq]

/-- C3: invalid-key rejection.  For an explicit uncached key on a registry
with no pending subscription: if the key is the `Sentinel` class, a `Sentinel`
instance, `Ellipsis`, `True`, `False`, `None` (or anything the reserved-value
membership test catches), the call raises `InvalidHintError`; every key the
check does not catch is accepted and a Sentinel is returned without raising. -/
theorem c3_invalid_key_rejection (cls : PyClass) (k : PyVal) (s : SysState)
    (hp : pendingOf s cls.id = PyVal.objMarker) (hk : k ≠ PyVal.objMarker)
    (hc : cacheGet s (cls.name, k) = none) :
    (isInvalidHint k = true →
      (Sentinel.new cls k s).1 = .error .invalidHintError) ∧
    (isInvalidHint k = false →
      (Sentinel.new cls k s).1 = .ok (.sent cls k s.nextUid)) := by
  constructor
  · intro hv
    rw [new_invalid hp hk hc hv]
  · intro hv
    rw [new_alloc hp hk hc hv]

/-- Witness for C3: on a fresh registry, every value of the reserved list is
rejected and the ordinary key `str` is accepted. -/
theorem c3_invalid_key_rejection_witness :
    ((Sentinel.new SentinelBase .sentinelCls initState).1 =
        .error .invalidHintError ∧
      (Sentinel.new SentinelBase (.sent SentinelBase .anyTy 0) initState).1 =
        .error .invalidHintError ∧
      (Sentinel.new SentinelBase .ellipsis initState).1 =
        .error .invalidHintError ∧
      (Sentinel.new SentinelBase (.pyBool true) initState).1 =
        .error .invalidHintError ∧
      (Sentinel.new SentinelBase (.pyBool false) initState).1 =
        .error .invalidHintError ∧
      (Sentinel.new SentinelBase .pyNone initState).1 =
        .error .invalidHintError) ∧
    (Sentinel.new SentinelBase (.ty "str") initState).1 =
      .ok (.sent SentinelBase (.ty "str") 0) :=
  ⟨⟨(c3_invalid_key_rejection SentinelBase .sentinelCls initState rfl
        (by decide) rfl).1 (by decide),
    (c3_invalid_key_rejection SentinelBase (.sent SentinelBase .anyTy 0) initState rfl
        (by decide) rfl).1 (by decide),
    (c3_invalid_key_rejection SentinelBase .ellipsis initState rfl
        (by decide) rfl).1 (by decide),
    (c3_invalid_key_rejection SentinelBase (.pyBool true) initState rfl
        (by decide) rfl).1 (by decide),
    (c3_invalid_key_rejection SentinelBase (.pyBool false) initState rfl
        (by decide) rfl).1 (by decide),
    (c3_invalid_key_rejection SentinelBase .pyNone initState rfl
        (by decide) rfl).1 (by decide)⟩,
    (c3_invalid_key_rejection SentinelBase (.ty "str") initState rfl
        (by decide) rfl).2 (by decide)⟩

/-- C10: the reserved-value check is equality-based, not identity-based: any
uncached key that the tuple-membership test relates by `==` to one of the
reserved literals is rejected with `InvalidHintError`, even when it is not
itself one of the enumerated reserved values — in particular `1` (equal to
`True`) and `0` (equal to `False`) are rejected. -/
theorem c10_reserved_check_by_equality (cls : PyClass) (k : PyVal) (s : SysState)
    (hp : pendingOf s cls.id = PyVal.objMarker) (hk : k ≠ PyVal.objMarker)
    (hc : cacheGet s (cls.name, k) = none)
    (hr : memTup k [.sentinelCls, .ellipsis, .pyBool true, .pyBool false,
      .pyNone] = true) :
    (Sentinel.new cls k s).1 = .error .invalidHintError ∧
    ((Sentinel.new SentinelBase (.pyInt 1) initState).1 =
        .error .invalidHintError ∧
      (Sentinel.new SentinelBase (.pyInt 0) initState).1 =
        .error .invalidHintError ∧
      (PyVal.pyInt 1) ∉ ([.sentinelCls, .ellipsis, .pyBool true, .pyBool false,
        .pyNone] : List PyVal) ∧
      (PyVal.pyInt 0) ∉ ([.sentinelCls, .ellipsis, .pyBool true, .pyBool false,
        .pyNone] : List PyVal)) := by
  refine ⟨?_, by rfl, by rfl, by decide, by decide⟩
  have hv : isInvalidHint k = true := by
    rw [isInvalidHint, hr, Bool.or_true]
  rw [new_invalid hp hk hc hv]

/-- Witness for C10: instantiated at the integer key `1` on a fresh registry. -/
theorem c10_reserved_check_by_equality_witness :
    (Sentinel.new SentinelBase (.pyInt 1) initState).1 =
      .error .invalidHintError :=
  (c10_reserved_check_by_equality SentinelBase (.pyInt 1) initState rfl
    (by decide) rfl (by decide)).1

/-- C5: immutability enforcement.  `__setattr__` and `__delattr__` reject
every attribute mutation or deletion on a live instance, including ones
attempted by the library's own code after construction; yet construction —
the single privileged path, which writes through `object.__setattr__` — still
leaves the returned instance with its `_hint` slot bound to the resolved key. -/
theorem c5_immutability :
    (∀ self n v, Sentinel.setAttr self n v = .error .attributeError) ∧
    (∀ self n, Sentinel.delAttr self n = .error .attributeError) ∧
    (∀ cls k s, pendingOf s cls.id = PyVal.objMarker → k ≠ PyVal.objMarker →
      cacheGet s (cls.name, k) = none → isInvalidHint k = false →
      (Sentinel.new cls k s).1 = .ok (.sent cls k s.nextUid) ∧
      hintOf (.sent cls k s.nextUid) = k) := by
  refine ⟨fun _ _ _ => rfl, fun _ _ => rfl, fun cls k s hp hk hc hv => ?_⟩
  rw [new_alloc hp hk hc hv]
  exact ⟨rfl, rfl⟩

/-- Witness for C5 at a concrete instance and a concrete construction. -/
theorem c5_immutability_witness :
    Sentinel.setAttr (.sent SentinelBase (.ty "str") 0) "x" .pyNone =
      .error .attributeError ∧
    Sentinel.delAttr (.sent SentinelBase (.ty "str") 0) "x" =
      .error .attributeError ∧
    hintOf (.sent SentinelBase (.ty "str") 0) = .ty "str" :=
  ⟨c5_immutability.1 (.sent SentinelBase (.ty "str") 0) "x" .pyNone,
    c5_immutability.2.1 (.sent SentinelBase (.ty "str") 0) "x",
    (c5_immutability.2.2 SentinelBase (.ty "str") initState rfl (by decide)
      rfl rfl).2⟩

/-- C6: effective-key resolution.  The explicit argument takes priority when
one is passed; otherwise a pending subscripted key is used; otherwise the key
defaults to `typing.Any` — and a call with neither argument nor pending key
is indistinguishable from an explicit `Any` call. -/
theorem c6_key_resolution :
    (∀ k p, k ≠ PyVal.objMarker → resolveHint k p = k) ∧
    (∀ p, p ≠ PyVal.objMarker → resolveHint PyVal.objMarker p = p) ∧
    resolveHint PyVal.objMarker PyVal.objMarker = PyVal.anyTy ∧
    (∀ cls s, pendingOf s cls.id = PyVal.objMarker →
      Sentinel.new cls PyVal.objMarker s = Sentinel.new cls PyVal.anyTy s) := by
  refine ⟨fun k p hk => resolveHint_explicit p hk, ?_, rfl, ?_⟩
  · intro p hp
    simp [resolveHint, hp]
  · intro cls s hp
    have hres : resolveHint PyVal.objMarker PyVal.objMarker =
        resolveHint PyVal.anyTy PyVal.objMarker := by decide
    simp only [Sentinel.new, hp, hres]

/-- Witness for C6 at concrete keys. -/
theorem c6_key_resolution_witness :
    resolveHint (.ty "str") .pyNone = .ty "str" ∧
    resolveHint PyVal.objMarker (.ty "str") = .ty "str" ∧
    Sentinel.new SentinelBase PyVal.objMarker initState =
      Sentinel.new SentinelBase PyVal.anyTy initState :=
  ⟨c6_key_resolution.1 (.ty "str") .pyNone (by decide),
    c6_key_resolution.2.1 (.ty "str") (by decide),
    c6_key_resolution.2.2.2 SentinelBase initState rfl⟩

/-- C9: the membership helper.  Called without an expected key it reports
exactly `isinstance(obj, Sentinel)`; called with a (non-`None`) expected key
it holds iff the object is a Sentinel instance whose hint equals that key;
concretely `is_sentinel(create(str), str)` holds, `is_sentinel(create(str),
bytes)` fails, and it fails on every non-Sentinel value. -/
theorem c9_is_sentinel_spec :
    (∀ obj, is_sentinel obj .pyNone = isSentinelInst obj) ∧
    (∀ obj typ, typ ≠ PyVal.pyNone →
      (is_sentinel obj typ = true ↔
        isSentinelInst obj = true ∧ pyEq (hintOf obj) typ = true)) ∧
    ((Sentinel.new SentinelBase (.ty "str") initState).1 =
        .ok (.sent SentinelBase (.ty "str") 0) ∧
      is_sentinel (.sent SentinelBase (.ty "str") 0) (.ty "str") = true ∧
      is_sentinel (.sent SentinelBase (.ty "str") 0) (.ty "bytes") = false) ∧
    (∀ v, isSentinelInst v = false → is_sentinel v .pyNone = false) := by
  refine ⟨fun obj => by simp [is_sentinel], ?_, ⟨by rfl, by decide, by decide⟩,
    fun v hv => by simp [is_sentinel, hv]⟩
  intro obj typ ht
  cases obj <;> simp [is_sentinel, isSentinelInst, hasattrHint, ht, bne]

/-- Witness for C9 with the expected-key hypothesis discharged at `str`. -/
theorem c9_is_sentinel_spec_witness :
    is_sentinel (.sent SentinelBase (.ty "str") 0) (.ty "str") = true ∧
    is_sentinel .pyNone .pyNone = false :=
  ⟨(c9_is_sentinel_spec.2.1 (.sent SentinelBase (.ty "str") 0) (.ty "str")
      (by decide)).mpr ⟨rfl, by decide⟩,
    c9_is_sentinel_spec.2.2.2 .pyNone rfl⟩

/-- C2 (divergence at the failing input): line 88 of `_core.py` consults the
cache *before* the conflict check of lines 91-93, so with a live cached
`Sentinel(bool)` the call `Sentinel[str](bool)` returns the cached instance
instead of raising `SubscriptedTypeError` — contradicting the method's own
docstring ("`Sentinel[A](B)` will raise `SubscriptedTypeError`").  On a fresh
registry the same sequence does raise, and subscribing to a key then passing
the same key explicitly agrees with the plain explicit call. -/
theorem c2_conflict_check_bypassed_by_cache :
    (Sentinel.new SentinelBase (.ty "bool")
        (Sentinel.classGetitem SentinelBase (.ty "str")
          (Sentinel.new SentinelBase (.ty "bool") initState).2).2).1 =
      .ok (.sent SentinelBase (.ty "bool") 0) ∧
    (Sentinel.new SentinelBase (.ty "bool")
        (Sentinel.classGetitem SentinelBase (.ty "str") initState).2).1 =
      .error .subscriptedTypeError ∧
    (Sentinel.new SentinelBase (.ty "str")
        (Sentinel.classGetitem SentinelBase (.ty "str") initState).2).1 =
      (Sentinel.new SentinelBase (.ty "str") initState).1 :=
  ⟨by rfl, by rfl, by rfl⟩

/-- A runtime subclass of the registry that shares the base's `__name__`
(the `@final` decorator is a static-analysis annotation, not a runtime
barrier, and two distinct classes may share a name). -/
def SameNameSub : PyClass := ⟨1, "Sentinel"⟩

/-- C4 (counterexample): the registry-identity component of the composite
cache key is `cls.__name__` — a string — not the class object itself, so a
subclass registry also named `"Sentinel"` returns the *identical* instance
the base registry created for the same key, refuting "never identical" /
"distinguishes base from every subclass". -/
theorem c4_counterexample_same_name_collision :
    SameNameSub ≠ SentinelBase ∧
    (Sentinel.new SentinelBase (.ty "str") initState).1 =
      .ok (.sent SentinelBase (.ty "str") 0) ∧
    (Sentinel.new SameNameSub (.ty "str")
        (Sentinel.new SentinelBase (.ty "str") initState).2).1 =
      .ok (.sent SentinelBase (.ty "str") 0) :=
  ⟨by decide, by rfl, by rfl⟩

/-- C4 (amended): registries whose class *names* differ never collide — the
base registry and any subclass or sibling registries with pairwise distinct
names yield pairwise non-identical singletons for the same key, because the
name is the registry-identity component of the cache key. -/
theorem c4_distinct_names_independent (c₁ c₂ : PyClass) (k : PyVal)
    (s : SysState) (hwf : WFState s) (hname : c₁.name ≠ c₂.name)
    (i₁ i₂ : PyVal) (h₁ : (Sentinel.new c₁ k s).1 = .ok i₁)
    (h₂ : (Sentinel.new c₂ k (Sentinel.new c₁ k s).2).1 = .ok i₂) :
    i₁ ≠ i₂ := by
  obtain ⟨a, ha₀, ua, hi₁, hna, _, _⟩ := new_ok_shape hwf h₁
  obtain ⟨b, hb₀, ub, hi₂, hnb, _, _⟩ := new_ok_shape (wf_new c₁ k s hwf) h₂
  subst hi₁
  subst hi₂
  intro hcontra
  injection hcontra with hab hh hu
  apply hname
  rw [← hna, ← hnb, hab]

/-- Witness for the amended C4 at two concretely named registries. -/
theorem c4_distinct_names_independent_witness :
    PyVal.sent SentinelBase (.ty "str") 0 ≠
      PyVal.sent ⟨1, "Specialized"⟩ (.ty "str") 1 :=
  c4_distinct_names_independent SentinelBase ⟨1, "Specialized"⟩ (.ty "str")
    initState wf_init (by decide) _ _ (by rfl) (by rfl)
